import Mathlib

/-!
Shallow embedding of the mobile audio playback coordinator of BirdNET-Go:
the `mobileAudio` store (`playDetection`, `stopPlayback`,
`registerAudioElement`, `isDetectionPlaying`) and the audio element binder
component `MobileAudioPlayer.svelte` (`handleCanPlay`, `handleEnded`,
`handleError`).  Browser-side effects on the audio element and the optional
UI callbacks are made explicit as an event trace; the possibility that the
element's play() promise rejects (for example under the autoplay policy) is
an explicit boolean input.
-/

namespace MobileAudio

/-- The browser audio element as the coordinator sees it: whether it is
paused and its current playback position. -/
structure AudioHandle where
  paused : Bool
  currentTime : Nat
  deriving DecidableEq, Repr

/-- Shared coordinator state: the two reactive cells `currentlyPlayingId`
and `isPlaying` of the mobileAudio store, plus the module-scoped
`audioElement` reference registered by the binder. -/
structure CoordState where
  currentlyPlayingId : Option Nat
  isPlaying : Bool
  audioElement : Option AudioHandle
  deriving DecidableEq, Repr

/-- Commands issued to the registered audio element. -/
inductive HandleCmd
  | play
  | pause
  | seekStart
  deriving DecidableEq, Repr

/-- Observable events of an operation: commands sent to the audio element
and UI callbacks fired by the binder.  A callback event records the
coordinator state visible at the moment the callback fires. -/
inductive Ev
  | cmd (c : HandleCmd)
  | cbError (msg : String) (observed : CoordState)
  | cbPlayEnd (observed : CoordState)
  deriving DecidableEq, Repr

/-- Result of the play() call on the browser audio element: the returned
promise either resolves or rejects. -/
def playAttempt (playOk : Bool) : Except String Unit :=
  if playOk then Except.ok () else Except.error "NotAllowedError"

/-- mobileAudio.registerAudioElement: replaces the module-held element
reference, no validation. -/
def registerAudioElement (element : Option AudioHandle) (s : CoordState) :
    CoordState :=
  { s with audioElement := element }

/-- mobileAudio.playDetection: if the requested id equals the current
selection and an element is registered, toggles play/pause on the element
and mirrors the result into `isPlaying`; a rejection of play() is caught and
only logged.  Otherwise sets the selection to the new id and `isPlaying` to
true without touching the element. -/
def playDetection (id : Nat) (playOk : Bool) (s : CoordState) :
    CoordState × List Ev :=
  match s.audioElement with
  | some h =>
    if s.currentlyPlayingId = some id then
      if h.paused then
        match playAttempt playOk with
        | Except.ok _ =>
          ({ s with isPlaying := true,
                    audioElement := some { h with paused := false } },
           [Ev.cmd HandleCmd.play])
        | Except.error _ =>
          ({ s with isPlaying := true }, [Ev.cmd HandleCmd.play])
      else
        ({ s with isPlaying := false,
                  audioElement := some { h with paused := true } },
         [Ev.cmd HandleCmd.pause])
    else
      ({ s with currentlyPlayingId := some id, isPlaying := true }, [])
  | none =>
    ({ s with currentlyPlayingId := some id, isPlaying := true }, [])

/-- mobileAudio.stopPlayback: if an element is registered, pauses it and
resets its position to the start; unconditionally clears the selection and
the activity flag. -/
def stopPlayback (s : CoordState) : CoordState × List Ev :=
  match s.audioElement with
  | some _ =>
    ({ currentlyPlayingId := none,
       isPlaying := false,
       audioElement := some { paused := true, currentTime := 0 } },
     [Ev.cmd HandleCmd.pause, Ev.cmd HandleCmd.seekStart])
  | none =>
    ({ s with currentlyPlayingId := none, isPlaying := false }, [])

/-- mobileAudio.isDetectionPlaying: pure read, true iff the id equals the
current selection. -/
def isDetectionPlaying (id : Nat) (s : CoordState) : Bool :=
  s.currentlyPlayingId == some id

/-- MobileAudioPlayer.handleError message computation: maps a MediaError
code (MEDIA_ERR_ABORTED = 1, MEDIA_ERR_NETWORK = 2, MEDIA_ERR_DECODE = 3,
MEDIA_ERR_SRC_NOT_SUPPORTED = 4) to its user-facing string; a missing error
object or an unknown code keeps the default message. -/
def mediaErrorMessage : Option Nat → String
  | some 1 => "Playback aborted"
  | some 2 => "Network error"
  | some 3 => "Audio format not supported"
  | some 4 => "Audio not available"
  | _ => "Failed to load audio"

/-- MobileAudioPlayer.handleCanPlay: if the element exists and a detection
is selected, calls play() on the element; a rejection is caught, logged and
reported through the optional onError callback with "Failed to play audio".
No coordinator state is modified on either outcome. -/
def handleCanPlay (playOk : Bool) (s : CoordState) : CoordState × List Ev :=
  match s.audioElement with
  | some h =>
    if s.currentlyPlayingId.isSome then
      match playAttempt playOk with
      | Except.ok _ =>
        ({ s with audioElement := some { h with paused := false } },
         [Ev.cmd HandleCmd.play])
      | Except.error _ =>
        (s, [Ev.cmd HandleCmd.play, Ev.cbError "Failed to play audio" s])
    else
      (s, [])
  | none => (s, [])

/-- MobileAudioPlayer.handleEnded: calls stopPlayback, then fires the
optional onPlayEnd callback, which therefore observes the cleared state. -/
def handleEnded (s : CoordState) : CoordState × List Ev :=
  let r := stopPlayback s
  (r.1, r.2 ++ [Ev.cbPlayEnd r.1])

/-- MobileAudioPlayer.handleError: computes the user-facing message from the
element's MediaError code, fires the optional onError callback (observing
the state before any clearing), then calls stopPlayback. -/
def handleError (err : Option Nat) (s : CoordState) : CoordState × List Ev :=
  let msg := mediaErrorMessage err
  let r := stopPlayback s
  (r.1, Ev.cbError msg s :: r.2)

/-- Exception-aware semantics of playDetection: the only fallible sub-call,
play() on the element, is matched exactly where the source attaches its
catch handler, so an uncaught rejection would surface as `Except.error`. -/
def playDetectionE (id : Nat) (playOk : Bool) (s : CoordState) :
    Except String (CoordState × List Ev) :=
  match s.audioElement with
  | some h =>
    if s.currentlyPlayingId = some id then
      if h.paused then
        match playAttempt playOk with
        | Except.ok _ =>
          Except.ok ({ s with isPlaying := true,
                              audioElement := some { h with paused := false } },
            [Ev.cmd HandleCmd.play])
        | Except.error _ =>
          Except.ok ({ s with isPlaying := true }, [Ev.cmd HandleCmd.play])
      else
        Except.ok ({ s with isPlaying := false,
                            audioElement := some { h with paused := true } },
          [Ev.cmd HandleCmd.pause])
    else
      Except.ok ({ s with currentlyPlayingId := some id, isPlaying := true }, [])
  | none =>
    Except.ok ({ s with currentlyPlayingId := some id, isPlaying := true }, [])

/-- Exception-aware semantics of stopPlayback: pause() and the position
reset throw nowhere, so every path returns normally. -/
def stopPlaybackE (s : CoordState) : Except String (CoordState × List Ev) :=
  match s.audioElement with
  | some _ =>
    Except.ok
      ({ currentlyPlayingId := none,
         isPlaying := false,
         audioElement := some { paused := true, currentTime := 0 } },
       [Ev.cmd HandleCmd.pause, Ev.cmd HandleCmd.seekStart])
  | none =>
    Except.ok ({ s with currentlyPlayingId := none, isPlaying := false }, [])

/-- One operation of the coordinator or the binder. -/
inductive Op
  | play (id : Nat) (playOk : Bool)
  | stop
  | register (element : Option AudioHandle)
  | canPlay (playOk : Bool)
  | ended
  | error (err : Option Nat)
  deriving DecidableEq, Repr

/-- State transition of a single operation, keeping only the state. -/
def step (s : CoordState) : Op → CoordState
  | Op.play id ok => (playDetection id ok s).1
  | Op.stop => (stopPlayback s).1
  | Op.register element => registerAudioElement element s
  | Op.canPlay ok => (handleCanPlay ok s).1
  | Op.ended => (handleEnded s).1
  | Op.error err => (handleError err s).1

/-- Initial coordinator state: nothing selected, not playing, no element. -/
def initState : CoordState := ⟨none, false, none⟩

/-- Run a sequence of operations from the initial state. -/
def run (ops : List Op) : CoordState := ops.foldl step initState

lemma stopPlayback_clears (s : CoordState) :
    (stopPlayback s).1.currentlyPlayingId = none ∧
    (stopPlayback s).1.isPlaying = false := by
  rcases s with ⟨sel, pl, el⟩
  cases el <;> exact ⟨rfl, rfl⟩

lemma playDetection_flag (id : Nat) (ok : Bool) (s : CoordState) :
    (playDetection id ok s).1.isPlaying = false ∨
    (playDetection id ok s).1.currentlyPlayingId = some id := by
  rcases s with ⟨sel, pl, el⟩
  cases el with
  | none => exact Or.inr rfl
  | some hd =>
    rcases hd with ⟨hp, ht⟩
    by_cases hsel : sel = some id
    · subst hsel
      cases hp <;> cases ok <;> simp [playDetection, playAttempt]
    · simp [playDetection, hsel]

lemma handleCanPlay_flags (ok : Bool) (s : CoordState) :
    (handleCanPlay ok s).1.isPlaying = s.isPlaying ∧
    (handleCanPlay ok s).1.currentlyPlayingId = s.currentlyPlayingId := by
  rcases s with ⟨sel, pl, el⟩
  cases el with
  | none => exact ⟨rfl, rfl⟩
  | some hd =>
    cases sel with
    | none => exact ⟨rfl, rfl⟩
    | some i => cases ok <;> exact ⟨rfl, rfl⟩

lemma step_inv (s : CoordState) (op : Op)
    (h : s.isPlaying = true → s.currentlyPlayingId.isSome = true) :
    (step s op).isPlaying = true → (step s op).currentlyPlayingId.isSome = true := by
  cases op with
  | play id ok =>
    rcases playDetection_flag id ok s with hf | hf
    · intro hp
      rw [step] at hp
      rw [hf] at hp
      cases hp
    · intro _
      simp [step, hf]
  | stop =>
    intro hp
    rw [step] at hp
    rw [(stopPlayback_clears s).2] at hp
    cases hp
  | register element =>
    intro hp
    exact h hp
  | canPlay ok =>
    intro hp
    rw [step, (handleCanPlay_flags ok s).1] at hp
    rw [step, (handleCanPlay_flags ok s).2]
    exact h hp
  | ended =>
    intro hp
    rw [step] at hp
    rw [show (handleEnded s).1 = (stopPlayback s).1 from rfl,
       (stopPlayback_clears s).2] at hp
    cases hp
  | error err =>
    intro hp
    rw [step] at hp
    rw [show (handleError err s).1 = (stopPlayback s).1 from rfl,
       (stopPlayback_clears s).2] at hp
    cases hp

lemma foldl_inv (ops : List Op) (s : CoordState)
    (h : s.isPlaying = true → s.currentlyPlayingId.isSome = true) :
    (ops.foldl step s).isPlaying = true →
    (ops.foldl step s).currentlyPlayingId.isSome = true := by
  induction ops generalizing s with
  | nil => simpa using h
  | cons op rest ih => exact ih (step s op) (step_inv s op h)

/-- C1: every operation of the coordinator (playDetection, stopPlayback,
registerAudioElement) and of the binder (canplay, ended, error handlers)
preserves the invariant that `isPlaying` is true only when
`currentlyPlayingId` is non-none: from the initial state, no reachable
state has the activity flag set with an empty selection. -/
theorem c1_activity_only_with_selection (ops : List Op) :
    (run ops).isPlaying = true → (run ops).currentlyPlayingId.isSome = true :=
  foldl_inv ops initState (by intro h; cases h)

/-- C1 witness: a concrete reachable state with the activity flag set
indeed has a non-none selection. -/
theorem c1_witness :
    (run [Op.register (some ⟨true, 0⟩), Op.play 5 true]).isPlaying = true ∧
    (run [Op.register (some ⟨true, 0⟩), Op.play 5 true]).currentlyPlayingId.isSome = true :=
  ⟨by decide, c1_activity_only_with_selection _ (by decide)⟩

/-- C2 counterexample: with a live but still paused element registered and
nothing selected, two successive playDetection calls for the same id leave
the activity flag true both times.  The toggle branch keys on the element's
paused flag, which the first call (selection branch) does not change, so the
second call resumes instead of pausing and the claimed toggle fails. -/
theorem c2_counterexample :
    (playDetection 7 true (⟨none, false, some ⟨true, 0⟩⟩ : CoordState)).1.isPlaying = true ∧
    (playDetection 7 true
      (playDetection 7 true (⟨none, false, some ⟨true, 0⟩⟩ : CoordState)).1).1.isPlaying = true ∧
    ¬ (playDetection 7 true
      (playDetection 7 true (⟨none, false, some ⟨true, 0⟩⟩ : CoordState)).1).1.isPlaying = false := by
  decide

/-- C2 amended: with a live element registered and the id not currently
selected, playDetection(id) selects id with activity true; once the binder's
ready-to-play signal has started rendering (the element is no longer
paused), a second playDetection(id) turns activity false and a third turns
it true again, with the selection equal to id throughout. -/
theorem c2_toggle_after_ready (id : Nat) (s : CoordState) (h : AudioHandle)
    (hel : s.audioElement = some h) (hsel : s.currentlyPlayingId ≠ some id) :
    (playDetection id true s).1.isPlaying = true ∧
    (playDetection id true s).1.currentlyPlayingId = some id ∧
    (handleCanPlay true (playDetection id true s).1).1.currentlyPlayingId = some id ∧
    (playDetection id true
      (handleCanPlay true (playDetection id true s).1).1).1.isPlaying = false ∧
    (playDetection id true
      (handleCanPlay true (playDetection id true s).1).1).1.currentlyPlayingId = some id ∧
    (playDetection id true (playDetection id true
      (handleCanPlay true (playDetection id true s).1).1).1).1.isPlaying = true ∧
    (playDetection id true (playDetection id true
      (handleCanPlay true (playDetection id true s).1).1).1).1.currentlyPlayingId = some id := by
  rcases s with ⟨sel, pl, el⟩
  rcases h with ⟨hp, ht⟩
  simp only [CoordState.audioElement] at hel
  simp only [CoordState.currentlyPlayingId] at hsel
  subst hel
  simp [playDetection, handleCanPlay, playAttempt, hsel]

/-- C2 amended witness at id = 7 from the empty selection. -/
theorem c2_toggle_after_ready_witness :
    (⟨none, false, some ⟨true, 0⟩⟩ : CoordState).audioElement = some ⟨true, 0⟩ ∧
    (⟨none, false, some ⟨true, 0⟩⟩ : CoordState).currentlyPlayingId ≠ some 7 ∧
    ((playDetection 7 true (⟨none, false, some ⟨true, 0⟩⟩ : CoordState)).1.isPlaying = true ∧
     (playDetection 7 true (⟨none, false, some ⟨true, 0⟩⟩ : CoordState)).1.currentlyPlayingId = some 7 ∧
     (handleCanPlay true (playDetection 7 true (⟨none, false, some ⟨true, 0⟩⟩ : CoordState)).1).1.currentlyPlayingId = some 7 ∧
     (playDetection 7 true
       (handleCanPlay true (playDetection 7 true (⟨none, false, some ⟨true, 0⟩⟩ : CoordState)).1).1).1.isPlaying = false ∧
     (playDetection 7 true
       (handleCanPlay true (playDetection 7 true (⟨none, false, some ⟨true, 0⟩⟩ : CoordState)).1).1).1.currentlyPlayingId = some 7 ∧
     (playDetection 7 true (playDetection 7 true
       (handleCanPlay true (playDetection 7 true (⟨none, false, some ⟨true, 0⟩⟩ : CoordState)).1).1).1).1.isPlaying = true ∧
     (playDetection 7 true (playDetection 7 true
       (handleCanPlay true (playDetection 7 true (⟨none, false, some ⟨true, 0⟩⟩ : CoordState)).1).1).1).1.currentlyPlayingId = some 7) :=
  ⟨rfl, by decide,
   c2_toggle_after_ready 7 ⟨none, false, some ⟨true, 0⟩⟩ ⟨true, 0⟩ rfl (by decide)⟩

/-- C3: when the requested id differs from the current selection or no
element is registered, playDetection sets the selection to id and the
activity flag to true, leaves the registered element unchanged, and issues
no command (no play, pause, load or seek) to it. -/
theorem c3_selection_branch_frame (id : Nat) (ok : Bool) (s : CoordState)
    (h : s.currentlyPlayingId ≠ some id ∨ s.audioElement = none) :
    (playDetection id ok s).1.currentlyPlayingId = some id ∧
    (playDetection id ok s).1.isPlaying = true ∧
    (playDetection id ok s).1.audioElement = s.audioElement ∧
    (playDetection id ok s).2 = [] := by
  rcases s with ⟨sel, pl, el⟩
  cases el with
  | none => exact ⟨rfl, rfl, rfl, rfl⟩
  | some hd =>
    rcases h with hne | hnone
    · simp only [CoordState.currentlyPlayingId] at hne
      simp [playDetection, hne]
    · exact Option.noConfusion hnone

/-- C3 witness: the spec scenario registerAudioHandle(none) with selection
42, then playDetection(42). -/
theorem c3_selection_branch_frame_witness :
    ((⟨some 42, false, none⟩ : CoordState).currentlyPlayingId ≠ some 42 ∨
     (⟨some 42, false, none⟩ : CoordState).audioElement = none) ∧
    ((playDetection 42 true (⟨some 42, false, none⟩ : CoordState)).1.currentlyPlayingId = some 42 ∧
     (playDetection 42 true (⟨some 42, false, none⟩ : CoordState)).1.isPlaying = true ∧
     (playDetection 42 true (⟨some 42, false, none⟩ : CoordState)).1.audioElement =
       (⟨some 42, false, none⟩ : CoordState).audioElement ∧
     (playDetection 42 true (⟨some 42, false, none⟩ : CoordState)).2 = []) :=
  ⟨Or.inr rfl, c3_selection_branch_frame 42 true ⟨some 42, false, none⟩ (Or.inr rfl)⟩

/-- C4: stopPlayback always clears the selection to none and the activity
flag to false; when an element is registered it is paused with its position
reset to the start, and when none is registered only the two state cells
change and no command is issued. -/
theorem c4_stop_clears (s : CoordState) :
    (stopPlayback s).1.currentlyPlayingId = none ∧
    (stopPlayback s).1.isPlaying = false ∧
    (∀ h : AudioHandle, s.audioElement = some h →
      (stopPlayback s).1.audioElement = some { paused := true, currentTime := 0 } ∧
      (stopPlayback s).2 = [Ev.cmd HandleCmd.pause, Ev.cmd HandleCmd.seekStart]) ∧
    (s.audioElement = none →
      (stopPlayback s).1.audioElement = none ∧ (stopPlayback s).2 = []) := by
  rcases s with ⟨sel, pl, el⟩
  cases el with
  | none =>
    exact ⟨rfl, rfl, fun h hh => Option.noConfusion hh, fun _ => ⟨rfl, rfl⟩⟩
  | some hd =>
    exact ⟨rfl, rfl, fun h _ => ⟨rfl, rfl⟩, fun hh => Option.noConfusion hh⟩

/-- C4 witness at a state with a live, playing element. -/
theorem c4_stop_clears_witness :
    (stopPlayback (⟨some 3, true, some ⟨false, 17⟩⟩ : CoordState)).1.currentlyPlayingId = none ∧
    (stopPlayback (⟨some 3, true, some ⟨false, 17⟩⟩ : CoordState)).1.audioElement =
      some { paused := true, currentTime := 0 } ∧
    (stopPlayback (⟨some 3, true, some ⟨false, 17⟩⟩ : CoordState)).2 =
      [Ev.cmd HandleCmd.pause, Ev.cmd HandleCmd.seekStart] :=
  ⟨(c4_stop_clears ⟨some 3, true, some ⟨false, 17⟩⟩).1,
   ((c4_stop_clears ⟨some 3, true, some ⟨false, 17⟩⟩).2.2.1 ⟨false, 17⟩ rfl).1,
   ((c4_stop_clears ⟨some 3, true, some ⟨false, 17⟩⟩).2.2.1 ⟨false, 17⟩ rfl).2⟩

/-- C5 counterexample: at selection 42 with a registered element, a failing
start on the ready-to-play signal does not call stopPlayback — the
coordinator state is left fully unchanged (selection stays 42, activity
stays true) and only the error callback fires; the claim that the state
returns to selection = none, activity = false is false here. -/
theorem c5_counterexample :
    (handleCanPlay false (⟨some 42, true, some ⟨true, 0⟩⟩ : CoordState)).1 =
      (⟨some 42, true, some ⟨true, 0⟩⟩ : CoordState) ∧
    ¬ (handleCanPlay false
        (⟨some 42, true, some ⟨true, 0⟩⟩ : CoordState)).1.currentlyPlayingId = none ∧
    ¬ (handleCanPlay false
        (⟨some 42, true, some ⟨true, 0⟩⟩ : CoordState)).1.isPlaying = false ∧
    (handleCanPlay false (⟨some 42, true, some ⟨true, 0⟩⟩ : CoordState)).2 =
      [Ev.cmd HandleCmd.play,
       Ev.cbError "Failed to play audio" ⟨some 42, true, some ⟨true, 0⟩⟩] := by
  refine ⟨rfl, by decide, by decide, rfl⟩

/-- C5 amended: when the binder receives the ready-to-play signal while the
selection is non-none and an element is registered, and the attempt to
start rendering fails, it reports "Failed to play audio" through the
optional error callback but does not call stopPlayback: the coordinator
state is left unchanged, so selection and activity keep their prior
values. -/
theorem c5_start_failure_keeps_state (s : CoordState)
    (hsel : s.currentlyPlayingId.isSome = true)
    (hel : s.audioElement.isSome = true) :
    (handleCanPlay false s).1 = s ∧
    (handleCanPlay false s).2 =
      [Ev.cmd HandleCmd.play, Ev.cbError "Failed to play audio" s] := by
  rcases s with ⟨sel, pl, el⟩
  cases el with
  | none => exact absurd hel (by simp)
  | some hd =>
    cases sel with
    | none => exact absurd hsel (by simp)
    | some i => exact ⟨rfl, rfl⟩

/-- C5 amended witness at selection 42. -/
theorem c5_start_failure_keeps_state_witness :
    (⟨some 42, true, some ⟨true, 0⟩⟩ : CoordState).currentlyPlayingId.isSome = true ∧
    ((handleCanPlay false (⟨some 42, true, some ⟨true, 0⟩⟩ : CoordState)).1 =
       (⟨some 42, true, some ⟨true, 0⟩⟩ : CoordState) ∧
     (handleCanPlay false (⟨some 42, true, some ⟨true, 0⟩⟩ : CoordState)).2 =
       [Ev.cmd HandleCmd.play,
        Ev.cbError "Failed to play audio" ⟨some 42, true, some ⟨true, 0⟩⟩]) :=
  ⟨rfl, c5_start_failure_keeps_state ⟨some 42, true, some ⟨true, 0⟩⟩ rfl rfl⟩

/-- C6: on a resource-load error with a selection set, the binder maps the
MediaError code to exactly one of the four user-facing strings (aborted,
network, decode, unsupported source), fires the error callback with that
string while the failing id is still selected, then calls stopPlayback,
ending with selection = none and activity = false; a decode error yields
"Audio format not supported". -/
theorem c6_load_error_mapping (s : CoordState) (id c : Nat)
    (hsel : s.currentlyPlayingId = some id)
    (hc : c = 1 ∨ c = 2 ∨ c = 3 ∨ c = 4) :
    (handleError (some c) s).1 = (stopPlayback s).1 ∧
    (handleError (some c) s).1.currentlyPlayingId = none ∧
    (handleError (some c) s).1.isPlaying = false ∧
    (handleError (some c) s).2 =
      Ev.cbError (mediaErrorMessage (some c)) s :: (stopPlayback s).2 ∧
    s.currentlyPlayingId = some id ∧
    (mediaErrorMessage (some c) = "Playback aborted" ∨
     mediaErrorMessage (some c) = "Network error" ∨
     mediaErrorMessage (some c) = "Audio format not supported" ∨
     mediaErrorMessage (some c) = "Audio not available") ∧
    (c = 1 → mediaErrorMessage (some c) = "Playback aborted") ∧
    (c = 2 → mediaErrorMessage (some c) = "Network error") ∧
    (c = 3 → mediaErrorMessage (some c) = "Audio format not supported") ∧
    (c = 4 → mediaErrorMessage (some c) = "Audio not available") := by
  refine ⟨rfl, (stopPlayback_clears s).1, (stopPlayback_clears s).2, rfl, hsel,
    ?_, ?_, ?_, ?_, ?_⟩
  · rcases hc with h1 | h2 | h3 | h4
    · subst h1; exact Or.inl rfl
    · subst h2; exact Or.inr (Or.inl rfl)
    · subst h3; exact Or.inr (Or.inr (Or.inl rfl))
    · subst h4; exact Or.inr (Or.inr (Or.inr rfl))
  all_goals intro he; subst he; rfl

/-- C6 witness: the spec scenario, decode error at selection 42. -/
theorem c6_load_error_mapping_witness :
    (handleError (some 3) (⟨some 42, true, some ⟨false, 5⟩⟩ : CoordState)).1.currentlyPlayingId = none ∧
    (handleError (some 3) (⟨some 42, true, some ⟨false, 5⟩⟩ : CoordState)).1.isPlaying = false ∧
    mediaErrorMessage (some 3) = "Audio format not supported" :=
  ⟨(c6_load_error_mapping ⟨some 42, true, some ⟨false, 5⟩⟩ 42 3 rfl
      (Or.inr (Or.inr (Or.inl rfl)))).2.1,
   (c6_load_error_mapping ⟨some 42, true, some ⟨false, 5⟩⟩ 42 3 rfl
      (Or.inr (Or.inr (Or.inl rfl)))).2.2.1,
   (c6_load_error_mapping ⟨some 42, true, some ⟨false, 5⟩⟩ 42 3 rfl
      (Or.inr (Or.inr (Or.inl rfl)))).2.2.2.2.2.2.2.2.1 rfl⟩

/-- C7: isDetectionPlaying returns true exactly when the id equals the
current selection; the result ignores the activity flag, and as a pure
function of the state it modifies nothing. -/
theorem c7_isDetectionPlaying_pure (id : Nat) (s : CoordState) :
    (isDetectionPlaying id s = true ↔ s.currentlyPlayingId = some id) ∧
    ∀ b : Bool, isDetectionPlaying id { s with isPlaying := b } =
      isDetectionPlaying id s := by
  constructor
  · simp [isDetectionPlaying]
  · intro b; rfl

/-- C7 witness at id = 5 with a paused selection. -/
theorem c7_isDetectionPlaying_pure_witness :
    (isDetectionPlaying 5 (⟨some 5, false, none⟩ : CoordState) = true ↔
      (⟨some 5, false, none⟩ : CoordState).currentlyPlayingId = some 5) ∧
    ∀ b : Bool, isDetectionPlaying 5 { (⟨some 5, false, none⟩ : CoordState) with isPlaying := b } =
      isDetectionPlaying 5 (⟨some 5, false, none⟩ : CoordState) :=
  c7_isDetectionPlaying_pure 5 ⟨some 5, false, none⟩

/-- C8: the exception-aware semantics of playDetection and stopPlayback
always return normally and agree with the total semantics: every fallible
sub-call (the play() promise) is caught inside, so no error value ever
propagates to the caller, even when the play call rejects. -/
theorem c8_never_throws (id : Nat) (ok : Bool) (s : CoordState) :
    playDetectionE id ok s = Except.ok (playDetection id ok s) ∧
    stopPlaybackE s = Except.ok (stopPlayback s) := by
  constructor
  · rcases s with ⟨sel, pl, el⟩
    cases el with
    | none => rfl
    | some hd =>
      rcases hd with ⟨hp, ht⟩
      by_cases hsel : sel = some id
      · cases hp <;> cases ok <;>
          simp [playDetectionE, playDetection, playAttempt, hsel]
      · simp [playDetectionE, playDetection, hsel]
  · rcases s with ⟨sel, pl, el⟩
    cases el <;> rfl

/-- C9: in the same-id branch with a paused registered element, the
activity flag is set to true unconditionally: even when the play call
rejects, the selection stays id, activity stays true, the element is left
as it was, and the trace holds only the play command — no error callback
fires and stopPlayback is not called. -/
theorem c9_resume_failure_no_rollback (id : Nat) (s : CoordState)
    (h : AudioHandle) (hel : s.audioElement = some h) (hp : h.paused = true)
    (hsel : s.currentlyPlayingId = some id) :
    (playDetection id false s).1.currentlyPlayingId = some id ∧
    (playDetection id false s).1.isPlaying = true ∧
    (playDetection id false s).1.audioElement = some h ∧
    (playDetection id false s).2 = [Ev.cmd HandleCmd.play] := by
  rcases s with ⟨sel, pl, el⟩
  simp only [CoordState.audioElement] at hel
  simp only [CoordState.currentlyPlayingId] at hsel
  subst hel
  subst hsel
  simp [playDetection, playAttempt, hp]

/-- C9 witness at id = 9 with a paused element. -/
theorem c9_resume_failure_no_rollback_witness :
    (playDetection 9 false (⟨some 9, false, some ⟨true, 5⟩⟩ : CoordState)).1.currentlyPlayingId = some 9 ∧
    (playDetection 9 false (⟨some 9, false, some ⟨true, 5⟩⟩ : CoordState)).1.isPlaying = true ∧
    (playDetection 9 false (⟨some 9, false, some ⟨true, 5⟩⟩ : CoordState)).1.audioElement = some ⟨true, 5⟩ ∧
    (playDetection 9 false (⟨some 9, false, some ⟨true, 5⟩⟩ : CoordState)).2 = [Ev.cmd HandleCmd.play] :=
  c9_resume_failure_no_rollback 9 ⟨some 9, false, some ⟨true, 5⟩⟩ ⟨true, 5⟩ rfl rfl rfl

/-- C10: the two terminal handlers order clearing and callbacks
differently.  handleEnded runs stopPlayback first and fires the play-ended
callback last, which therefore observes the cleared state (selection none,
activity false); handleError fires the error callback first, which observes
the pre-stop state with the failing id still selected, and runs
stopPlayback after it. -/
theorem c10_callback_ordering (s : CoordState) (id : Nat) (h : AudioHandle)
    (err : Option Nat) (hsel : s.currentlyPlayingId = some id)
    (hel : s.audioElement = some h) :
    (handleEnded s).2 =
      [Ev.cmd HandleCmd.pause, Ev.cmd HandleCmd.seekStart,
       Ev.cbPlayEnd (handleEnded s).1] ∧
    (handleEnded s).1.currentlyPlayingId = none ∧
    (handleEnded s).1.isPlaying = false ∧
    (handleError err s).2 =
      [Ev.cbError (mediaErrorMessage err) s,
       Ev.cmd HandleCmd.pause, Ev.cmd HandleCmd.seekStart] ∧
    (handleError err s).1.currentlyPlayingId = none ∧
    (handleError err s).1.isPlaying = false ∧
    s.currentlyPlayingId = some id := by
  rcases s with ⟨sel, pl, el⟩
  simp only [CoordState.audioElement] at hel
  subst hel
  exact ⟨rfl, rfl, rfl, rfl, rfl, rfl, hsel⟩

/-- C10 witness at selection 42 with a decode error. -/
theorem c10_callback_ordering_witness :
    (handleEnded (⟨some 42, true, some ⟨false, 5⟩⟩ : CoordState)).2 =
      [Ev.cmd HandleCmd.pause, Ev.cmd HandleCmd.seekStart,
       Ev.cbPlayEnd (handleEnded (⟨some 42, true, some ⟨false, 5⟩⟩ : CoordState)).1] ∧
    (handleError (some 3) (⟨some 42, true, some ⟨false, 5⟩⟩ : CoordState)).2 =
      [Ev.cbError (mediaErrorMessage (some 3)) ⟨some 42, true, some ⟨false, 5⟩⟩,
       Ev.cmd HandleCmd.pause, Ev.cmd HandleCmd.seekStart] :=
  ⟨(c10_callback_ordering ⟨some 42, true, some ⟨false, 5⟩⟩ 42 ⟨false, 5⟩
      (some 3) rfl rfl).1,
   (c10_callback_ordering ⟨some 42, true, some ⟨false, 5⟩⟩ 42 ⟨false, 5⟩
      (some 3) rfl rfl).2.2.2.1⟩

end MobileAudio
